import Mathlib

/-!
Verification of the request-coalescing gRPC front-end for TigerBeetle
(repository `lil5/tigerbeetle_grpc`).

The development shallowly embeds the Go source of `grpc/app.go`
(`NewApp`, `App.CreateTransfers`, `App.CreateAccounts`) as Lean
functions.  External collaborators — the hex/identifier parsers from the
`shared` package and the downstream TigerBeetle client — are passed as
function parameters, exactly as they are opaque calls in the source.
The coalescing engine itself (`github.com/charithe/timedbuf/v2`) is an
external dependency whose source is not part of the repository; its
batching behaviour is modelled from the specification (see
`CoalescerState` below), while the flush callback installed by `NewApp`
is embedded verbatim from the source.

Machine integers are modelled as `Nat` with explicit `% 2^w` at the
conversion points where the Go source performs a narrowing conversion.
Go's `(value, error)` returns are modelled as `α × Option GoError` for
the downstream client (both components are inspected by the source) and
as `Except GoError α` for the early-return translation loops.
-/

namespace TigerBeetleGrpc

/-- Errors that flow through the handlers.  `zeroAccounts` and
`zeroTransfers` embed the package-level sentinel errors
`ErrZeroAccounts` / `ErrZeroTransfers`; `hexParse` stands for errors
produced by the identifier translation functions; `downstream` stands
for errors returned by the TigerBeetle client. -/
inductive GoError : Type where
  | zeroAccounts : GoError
  | zeroTransfers : GoError
  | hexParse : String → GoError
  | downstream : Nat → GoError
deriving DecidableEq, Repr

/-- Result of Go's `strconv.Atoi` with the error discarded, as in
`bufSize, _ := strconv.Atoi(os.Getenv("BUFFER_SIZE"))`: on a parse
failure (including an absent variable, whose value is the empty string)
Go's `Atoi` returns `0`. -/
def atoiIgnoringErr (r : Option Int) : Int :=
  r.getD 0

/-- Nanoseconds in one millisecond (Go `time.Millisecond`). -/
def millisecond : Int := 1000000

/-- Buffer configuration carried by the constructed `TimedBuf`:
`size` is the capacity argument and `delay` the flush deadline in
nanoseconds, exactly the two values `NewApp` passes to `timedbuf.New`. -/
structure BufConfig : Type where
  size : Int
  delay : Int
deriving DecidableEq, Repr

/-- Embeds the configuration logic of `NewApp` (src/unnamed/part_000
lines 41-49).  `isBuffered` is the test `os.Getenv("IS_BUFFERED") ==
"true"`; `atoiR` is the outcome of `strconv.Atoi(os.Getenv("BUFFER_SIZE"))`
(`none` = parse error, whose returned value 0 is used since the error is
discarded); `parseDurR` is the outcome of
`time.ParseDuration(os.Getenv("BUFFER_DELAY"))` in nanoseconds (`none` =
parse error).  The result is the `TimedBuf` configuration, or `none` when
buffering is disabled (`app.TimedBuf` stays `nil`).  `NewApp` returns
`*App` only: it has no error result, and no validation is performed on
either value. -/
def newAppBufConfig (isBuffered : Bool) (atoiR : Option Int)
    (parseDurR : Option Int) : Option BufConfig :=
  if isBuffered then
    let bufSize0 : Int := atoiIgnoringErr atoiR
    let bufSize : Int := if bufSize0 = 0 then 1024 else bufSize0
    let bufDelay : Int := parseDurR.getD (100 * millisecond)
    some ⟨bufSize, bufDelay⟩
  else
    none

/-- Wire-level transfer flags (`proto.Transfer.TransferFlags`), each a
nullable boolean on the wire. -/
structure ProtoTransferFlags : Type where
  linked : Option Bool
  pending : Option Bool
  postPendingTransfer : Option Bool
  voidPendingTransfer : Option Bool
  balancingDebit : Option Bool
  balancingCredit : Option Bool
deriving DecidableEq, Repr

/-- Wire-level transfer (`proto.Transfer`).  Identifier fields are hex
strings; numeric fields are modelled as `Nat`. -/
structure ProtoTransfer : Type where
  id : String
  transferFlags : ProtoTransferFlags
  debitAccountId : String
  creditAccountId : String
  pendingId : Option String
  userData128 : String
  amount : Nat
  userData64 : Nat
  userData32 : Nat
  ledger : Nat
  code : Nat
deriving DecidableEq, Repr

/-- Domain transfer (`types.Transfer` of the tigerbeetle-go client).
128-bit fields are `Nat` values below `2^128`, produced either by the
hex parsers or by `types.ToUint128` of a 64-bit value. -/
structure Transfer : Type where
  id : Nat
  debitAccountID : Nat
  creditAccountID : Nat
  amount : Nat
  pendingID : Nat
  userData128 : Nat
  userData64 : Nat
  userData32 : Nat
  timeout : Nat
  ledger : Nat
  code : Nat
  flags : Nat
  timestamp : Nat
deriving DecidableEq, Repr

/-- Embeds `types.TransferFlags.ToUint16` of the tigerbeetle-go client
on the flag set built by `App.CreateTransfers` with
`lo.FromPtrOr(·, false)` defaults: bit i is set when the i-th flag is
`true`. -/
def transferFlagsToUint16 (f : ProtoTransferFlags) : Nat :=
  (if f.linked.getD false then 1 else 0) +
  (if f.pending.getD false then 2 else 0) +
  (if f.postPendingTransfer.getD false then 4 else 0) +
  (if f.voidPendingTransfer.getD false then 8 else 0) +
  (if f.balancingDebit.getD false then 16 else 0) +
  (if f.balancingCredit.getD false then 32 else 0)

/-- Embeds the per-element body of the translation loop of
`App.CreateTransfers` (src/unnamed/part_000 lines 129-173).  `hp` is
`shared.HexStringToUint128` and `tp` is `types.HexStringToUint128`,
opaque fallible collaborators; each failed parse early-returns its
error, as in the source.  Note `Code: uint16(inTransfer.Ledger)` — the
source derives the domain `Code` from the wire `Ledger` field — and the
constant `Timeout: 0`, `Timestamp: 0`. -/
def translateTransfer (hp tp : String → Except GoError Nat)
    (t : ProtoTransfer) : Except GoError Transfer :=
  match hp t.id with
  | .error e => .error e
  | .ok id =>
    let flags := transferFlagsToUint16 t.transferFlags
    match hp t.debitAccountId with
    | .error e => .error e
    | .ok debitAccountID =>
      match hp t.creditAccountId with
      | .error e => .error e
      | .ok creditAccountID =>
        match hp (t.pendingId.getD "") with
        | .error e => .error e
        | .ok pendingID =>
          match tp t.userData128 with
          | .error e => .error e
          | .ok userData128 =>
            .ok { id := id
                  debitAccountID := debitAccountID
                  creditAccountID := creditAccountID
                  amount := t.amount % 2 ^ 64
                  pendingID := pendingID
                  userData128 := userData128
                  userData64 := t.userData64 % 2 ^ 64
                  userData32 := t.userData32 % 2 ^ 32
                  timeout := 0
                  ledger := t.ledger % 2 ^ 32
                  code := t.ledger % 2 ^ 16
                  flags := flags
                  timestamp := 0 }

/-- Embeds the whole translation loop of `App.CreateTransfers`: elements
are translated in order, appended to the accumulated list, and the
first failure aborts the loop, exactly Go's early `return nil, err`. -/
def translateTransfers (hp tp : String → Except GoError Nat) :
    List ProtoTransfer → Except GoError (List Transfer)
  | [] => .ok []
  | t :: rest =>
    match translateTransfer hp tp t with
    | .error e => .error e
    | .ok tr =>
      match translateTransfers hp tp rest with
      | .error e => .error e
      | .ok trs => .ok (tr :: trs)

/-- One element of the outcome list returned by the TigerBeetle client
(`types.TransferEventResult`): the index of the offending transfer and
the rendered result code (`r.Result.String()` is the only use the
handlers make of the enum, so the rendering is carried directly). -/
structure TransferEventResult : Type where
  index : Nat
  result : String
deriving DecidableEq, Repr

/-- Type of the downstream call `TB.CreateTransfers`: Go's
`(results, err)` pair, both components of which the source inspects. -/
def TransferAdapter : Type :=
  List Transfer → List TransferEventResult × Option GoError

/-- Embeds `TimedPayloadResponse` (src/unnamed/part_000 lines 24-27). -/
structure TimedPayloadResponse : Type where
  results : List TransferEventResult
  error : Option GoError
deriving DecidableEq, Repr

/-- Embeds `TimedPayload` (src/unnamed/part_000 lines 28-31): `c`
identifies the per-`Put` response channel, `payload` the translated
transfers of one `CreateTransfers` request. -/
structure TimedPayload : Type where
  c : Nat
  payload : List Transfer
deriving DecidableEq, Repr

/-- Embeds the concatenation loop at the head of the flush callback
(src/unnamed/part_000 lines 52-55):
`transfers := []; for _, p := range payloads { transfers = append(transfers, p.payload...) }`. -/
def collectTransfers (payloads : List TimedPayload) : List Transfer :=
  payloads.foldl (fun acc p => acc ++ p.payload) []

/-- Embeds the flush callback installed by `NewApp` (src/unnamed/part_000
lines 50-66) up to the channel sends: concatenate the payloads, call
`TB.CreateTransfers` once, and build the single shared response value. -/
def flushResponse (tbCreate : TransferAdapter)
    (payloads : List TimedPayload) : TimedPayloadResponse :=
  let transfers := collectTransfers payloads
  let r := tbCreate transfers
  { results := r.1, error := r.2 }

/-- Embeds the fan-out loop of the flush callback (src/unnamed/part_000
lines 63-65): `for _, p := range payloads { p.c <- res }`.  Each pair is
one channel send, `(destination channel, value sent)`; the response
value `res` is computed once, before the loop. -/
def flushSends (tbCreate : TransferAdapter)
    (payloads : List TimedPayload) : List (Nat × TimedPayloadResponse) :=
  let res := flushResponse tbCreate payloads
  payloads.map (fun p => (p.c, res))

/-- Submission mode of `App.CreateTransfers`: the branch on
`s.TimedBuf != nil` (src/unnamed/part_000 line 177).  In buffered mode
the handler enqueues `TimedPayload{c, transfers}` and blocks on the
channel; `await` maps the enqueued transfer list to the
`TimedPayloadResponse` the channel eventually delivers (which batch the
payload lands in, and hence the response, is the environment's
choice). -/
inductive BufMode : Type where
  | unbuffered : TransferAdapter → BufMode
  | buffered : (List Transfer → TimedPayloadResponse) → BufMode

/-- Reply message of `CreateTransfers` (`proto.CreateTransfersReply`). -/
structure CreateTransfersReply : Type where
  results : List String
deriving DecidableEq, Repr

/-- Embeds `App.CreateTransfers` (src/unnamed/part_000 lines 124-199):
reject an empty request with `ErrZeroTransfers`; translate every
element, early-returning the first translation error; submit either
through the buffer (enqueue, then read the response from the channel)
or directly to `TB.CreateTransfers`; a non-nil error yields
`(nil, err)`, otherwise the reply carries `r.Result.String()` for every
returned result. -/
def createTransfers (hp tp : String → Except GoError Nat)
    (mode : BufMode) (req : List ProtoTransfer) :
    Except GoError CreateTransfersReply :=
  if req.length = 0 then
    .error .zeroTransfers
  else
    match translateTransfers hp tp req with
    | .error e => .error e
    | .ok transfers =>
      let r : List TransferEventResult × Option GoError :=
        match mode with
        | .unbuffered tbCreate => tbCreate transfers
        | .buffered await =>
          let resp := await transfers
          (resp.results, resp.error)
      match r.2 with
      | some e => .error e
      | none => .ok ⟨r.1.map (·.result)⟩

/-- Wire-level account flags (`proto.AccountFlags`), nullable booleans. -/
structure ProtoAccountFlags : Type where
  linked : Option Bool
  debitsMustNotExceedCredits : Option Bool
  creditsMustNotExceedDebits : Option Bool
  history : Option Bool
deriving DecidableEq, Repr

/-- Wire-level account (`proto.Account`). -/
structure ProtoAccount : Type where
  id : String
  userData128 : String
  flags : ProtoAccountFlags
  debitsPending : Nat
  debitsPosted : Nat
  creditsPending : Nat
  creditsPosted : Nat
  userData64 : Nat
  userData32 : Nat
  ledger : Nat
  code : Nat
deriving DecidableEq, Repr

/-- Domain account (`types.Account` of the tigerbeetle-go client). -/
structure Account : Type where
  id : Nat
  debitsPending : Nat
  debitsPosted : Nat
  creditsPending : Nat
  creditsPosted : Nat
  userData128 : Nat
  userData64 : Nat
  userData32 : Nat
  ledger : Nat
  code : Nat
  flags : Nat
deriving DecidableEq, Repr

/-- Embeds `types.AccountFlags.ToUint16` on the flag set built by
`App.CreateAccounts` with `lo.FromPtrOr(·, false)` defaults. -/
def accountFlagsToUint16 (f : ProtoAccountFlags) : Nat :=
  (if f.linked.getD false then 1 else 0) +
  (if f.debitsMustNotExceedCredits.getD false then 2 else 0) +
  (if f.creditsMustNotExceedDebits.getD false then 4 else 0) +
  (if f.history.getD false then 8 else 0)

/-- Embeds the per-element body of the translation loop of
`App.CreateAccounts` (src/unnamed/part_000 lines 80-108). -/
def translateAccount (hp tp : String → Except GoError Nat)
    (a : ProtoAccount) : Except GoError Account :=
  match hp a.id with
  | .error e => .error e
  | .ok id =>
    match tp a.userData128 with
    | .error e => .error e
    | .ok userData128 =>
      .ok { id := id
            debitsPending := a.debitsPending % 2 ^ 64
            debitsPosted := a.debitsPosted % 2 ^ 64
            creditsPending := a.creditsPending % 2 ^ 64
            creditsPosted := a.creditsPosted % 2 ^ 64
            userData128 := userData128
            userData64 := a.userData64 % 2 ^ 64
            userData32 := a.userData32 % 2 ^ 32
            ledger := a.ledger % 2 ^ 32
            code := a.code % 2 ^ 16
            flags := accountFlagsToUint16 a.flags }

/-- Embeds the translation loop of `App.CreateAccounts`: in-order, first
failure early-returns. -/
def translateAccounts (hp tp : String → Except GoError Nat) :
    List ProtoAccount → Except GoError (List Account)
  | [] => .ok []
  | a :: rest =>
    match translateAccount hp tp a with
    | .error e => .error e
    | .ok acc =>
      match translateAccounts hp tp rest with
      | .error e => .error e
      | .ok accs => .ok (acc :: accs)

/-- One element of the outcome list of `TB.CreateAccounts`
(`types.AccountEventResult`), carrying its rendered result code. -/
structure AccountEventResult : Type where
  index : Nat
  result : String
deriving DecidableEq, Repr

/-- Type of the downstream call `TB.CreateAccounts`. -/
def AccountAdapter : Type :=
  List Account → List AccountEventResult × Option GoError

/-- Reply message of `CreateAccounts` (`proto.CreateAccountsReply`). -/
structure CreateAccountsReply : Type where
  results : List String
deriving DecidableEq, Repr

/-- Embeds `App.CreateAccounts` (src/unnamed/part_000 lines 75-122):
reject an empty request with `ErrZeroAccounts`; translate every element
with early return; call `TB.CreateAccounts` directly (accounts are
never buffered); a non-nil error yields `(nil, err)`, otherwise the
reply carries the rendered results. -/
def createAccounts (hp tp : String → Except GoError Nat)
    (tbCreateAccounts : AccountAdapter) (req : List ProtoAccount) :
    Except GoError CreateAccountsReply :=
  if req.length = 0 then
    .error .zeroAccounts
  else
    match translateAccounts hp tp req with
    | .error e => .error e
    | .ok accounts =>
      let r := tbCreateAccounts accounts
      match r.2 with
      | some e => .error e
      | none => .ok ⟨r.1.map (·.result)⟩

/-- Modelled from the spec: the coalescing engine is the external
library `github.com/charithe/timedbuf/v2`, whose source is not part of
this repository; only its constructor and `Put` are called from
`NewApp` / `App.CreateTransfers`.  Per the spec (§2-§5), the Coalescer
owns one live Batch: `Put` appends to it in submission order; when the
batch reaches capacity it is retired and flushed at once; the deadline
timer retires whatever non-empty batch is live when it fires, and is a
no-op on an already-retired (empty-again) batch.  `pending` is the live
batch, `flushed` the already-retired batches in flush order, each the
argument of exactly one invocation of the flush function. -/
structure CoalescerState (T : Type) : Type where
  pending : List T
  flushed : List (List T)
deriving DecidableEq, Repr

/-- Modelled from the spec: events driving one Coalescer — a producer's
`Put` of one item, or a firing of the deadline timer. -/
inductive BufEvent (T : Type) : Type where
  | put : T → BufEvent T
  | tick : BufEvent T
deriving DecidableEq, Repr

/-- Modelled from the spec: one step of the Coalescer.  `Put` appends
the item to the live batch and retires the batch at once when it has
reached `cap` items; the deadline tick retires a non-empty live batch
and does nothing on an empty one. -/
def coalescerStep {T : Type} (cap : Nat) (s : CoalescerState T)
    (e : BufEvent T) : CoalescerState T :=
  match e with
  | .put x =>
    let pending := s.pending ++ [x]
    if cap ≤ pending.length then
      { pending := [], flushed := s.flushed ++ [pending] }
    else
      { s with pending := pending }
  | .tick =>
    if s.pending.isEmpty then
      s
    else
      { pending := [], flushed := s.flushed ++ [s.pending] }

/-- Modelled from the spec: run the Coalescer over a sequence of
events from a given state. -/
def runCoalescer {T : Type} (cap : Nat) (s : CoalescerState T) :
    List (BufEvent T) → CoalescerState T
  | [] => s
  | e :: tr => runCoalescer cap (coalescerStep cap s e) tr

/-- Items submitted by the `put` events of a trace, in submission
order. -/
def putsOf {T : Type} (tr : List (BufEvent T)) : List T :=
  tr.filterMap (fun e =>
    match e with
    | .put x => some x
    | .tick => none)

/-- Inputs of the successive downstream-adapter invocations produced by
a trace: each retired batch is flushed exactly once, and the flush
callback of `NewApp` passes the concatenation `collectTransfers` of the
batch to `TB.CreateTransfers`. -/
def adapterCallInputs (cap : Nat) (tr : List (BufEvent TimedPayload)) :
    List (List Transfer) :=
  (runCoalescer cap ⟨[], []⟩ tr).flushed.map collectTransfers

/-- Stated from the spec's words for the passthrough-equivalence claim:
the result of invoking the downstream adapter directly on the
translated transfer sequence — the error verbatim on failure, the
rendered outcome sequence on success. -/
def directAdapterResult (tbCreate : TransferAdapter)
    (transfers : List Transfer) : Except GoError CreateTransfersReply :=
  match (tbCreate transfers).2 with
  | some e => .error e
  | none => .ok ⟨(tbCreate transfers).1.map (fun r => r.result)⟩

/-- Concrete payload used by witnesses. -/
def samplePayload : TimedPayload := ⟨0, []⟩

/-- Concrete hex parser that accepts every string, used by witnesses. -/
def okParse : String → Except GoError Nat :=
  fun _ => .ok 0

/-- Concrete hex parser that rejects every string, used by witnesses. -/
def failParse : String → Except GoError Nat :=
  fun s => .error (.hexParse s)

/-- Concrete wire transfer used by witnesses; its `ledger` and `code`
fields differ so the `Code`-from-`Ledger` translation is observable. -/
def sampleProtoTransfer : ProtoTransfer :=
  { id := "a1"
    transferFlags := ⟨none, none, none, none, none, none⟩
    debitAccountId := "b2"
    creditAccountId := "c3"
    pendingId := none
    userData128 := "d4"
    amount := 5
    userData64 := 6
    userData32 := 7
    ledger := 70001
    code := 9 }

/-- Image of `sampleProtoTransfer` under translation with `okParse`:
note `code = 70001 % 2^16 = 4465`, from the ledger field. -/
def sampleTranslated : Transfer :=
  { id := 0
    debitAccountID := 0
    creditAccountID := 0
    amount := 5
    pendingID := 0
    userData128 := 0
    userData64 := 6
    userData32 := 7
    timeout := 0
    ledger := 70001
    code := 4465
    flags := 0
    timestamp := 0 }

/-- Concrete succeeding downstream transfer adapter. -/
def tbOk : TransferAdapter :=
  fun _ => ([⟨0, "ok"⟩], none)

/-- Concrete failing downstream transfer adapter. -/
def tbErr : TransferAdapter :=
  fun _ => ([], some (.downstream 7))

/-- Concrete channel read delivering a successful batch response. -/
def awaitOk : List Transfer → TimedPayloadResponse :=
  fun _ => ⟨[⟨0, "ok"⟩], none⟩

/-- Concrete channel read delivering a failed batch response. -/
def awaitErr : List Transfer → TimedPayloadResponse :=
  fun _ => ⟨[], some (.downstream 7)⟩

/-- Concrete wire account used by witnesses. -/
def sampleProtoAccount : ProtoAccount :=
  { id := "acct1"
    userData128 := "u"
    flags := ⟨none, none, none, none⟩
    debitsPending := 0
    debitsPosted := 0
    creditsPending := 0
    creditsPosted := 0
    userData64 := 1
    userData32 := 2
    ledger := 3
    code := 4 }

/-- Concrete succeeding downstream account adapter. -/
def tbAccOk : AccountAdapter :=
  fun _ => ([], none)

/-! Helper lemmas. -/

theorem foldl_append_payload (ps : List TimedPayload) (acc : List Transfer) :
    ps.foldl (fun a p => a ++ p.payload) acc
      = acc ++ (ps.map (fun p => p.payload)).flatten := by
  induction ps generalizing acc with
  | nil => simp
  | cons p rest ih => simp [List.foldl_cons, ih, List.append_assoc]

theorem collectTransfers_eq_flatten (ps : List TimedPayload) :
    collectTransfers ps = (ps.map (fun p => p.payload)).flatten := by
  simpa using foldl_append_payload ps []

theorem coalescerStep_flatten {T : Type} (cap : Nat) (s : CoalescerState T)
    (e : BufEvent T) :
    ((coalescerStep cap s e).flushed).flatten ++ (coalescerStep cap s e).pending
      = s.flushed.flatten ++ s.pending ++ putsOf [e] := by
  cases e with
  | put x =>
    simp only [coalescerStep]
    split <;> simp [putsOf, List.append_assoc]
  | tick =>
    simp only [coalescerStep]
    split <;> simp [putsOf, List.append_assoc]

theorem runCoalescer_flatten {T : Type} (cap : Nat)
    (tr : List (BufEvent T)) :
    ∀ s : CoalescerState T,
      ((runCoalescer cap s tr).flushed).flatten ++ (runCoalescer cap s tr).pending
        = s.flushed.flatten ++ s.pending ++ putsOf tr := by
  induction tr with
  | nil => intro s; simp [runCoalescer, putsOf]
  | cons e rest ih =>
    intro s
    have hstep := coalescerStep_flatten cap s e
    have hrest := ih (coalescerStep cap s e)
    have hputs : putsOf (e :: rest) = putsOf [e] ++ putsOf rest := by
      cases e <;> simp [putsOf]
    rw [runCoalescer, hrest, hstep, hputs, List.append_assoc]

/-! Theorems for the claims. -/

/-- C1: for every flushed Batch, the sequence of transfers passed to the
downstream adapter (`TB.CreateTransfers`) is exactly the concatenation,
in submission order, of the payloads of all `Put` calls coalesced into
that Batch: the adapter input of each flush is
`p1 ++ p2 ++ ... ++ pn` for the batch's payloads, and the flushed
batches together with the still-live batch list the submitted payloads
in submission order. -/
theorem flush_receives_ordered_concatenation (cap : Nat)
    (tr : List (BufEvent TimedPayload)) :
    adapterCallInputs cap tr
        = ((runCoalescer cap ⟨[], []⟩ tr).flushed).map
            (fun b => (b.map (fun p => p.payload)).flatten)
      ∧ ((runCoalescer cap ⟨[], []⟩ tr).flushed).flatten
            ++ (runCoalescer cap ⟨[], []⟩ tr).pending = putsOf tr := by
  constructor
  · unfold adapterCallInputs
    exact List.map_congr_left (fun b _ => collectTransfers_eq_flatten b)
  · simpa using runCoalescer_flatten cap tr ⟨[], []⟩

/-- C4: for any sequence of `Put` calls against one Coalescer, once the
live batch has been retired (`pending = []`), the downstream adapter has
been invoked exactly once per Batch formed, and the concatenation of the
flushed batches is exactly the submitted payload sequence: every payload
appears in exactly one invocation, the invocations receive disjoint
order-preserving subsets, and nothing is dropped or flushed twice. -/
theorem puts_flushed_exactly_once (cap : Nat)
    (tr : List (BufEvent TimedPayload))
    (hdone : (runCoalescer cap ⟨[], []⟩ tr).pending = []) :
    (adapterCallInputs cap tr).length
        = (runCoalescer cap ⟨[], []⟩ tr).flushed.length
      ∧ ((runCoalescer cap ⟨[], []⟩ tr).flushed).flatten = putsOf tr := by
  constructor
  · simp [adapterCallInputs]
  · have h := runCoalescer_flatten cap tr ⟨[], []⟩
    simpa [hdone] using h

/-- Witness for C4 at capacity 1 and a single `Put`. -/
theorem puts_flushed_exactly_once_witness :
    (adapterCallInputs 1 [BufEvent.put samplePayload]).length
        = (runCoalescer 1 ⟨[], []⟩ [BufEvent.put samplePayload]).flushed.length
      ∧ ((runCoalescer 1 ⟨[], []⟩ [BufEvent.put samplePayload]).flushed).flatten
          = putsOf [BufEvent.put samplePayload] :=
  puts_flushed_exactly_once 1 [BufEvent.put samplePayload] (by decide)

/-- C2: every `Put` call whose payload was coalesced into a flushed
Batch receives the identical `TimedPayloadResponse`: the channel sends
of the flush callback all carry the batch-wide outcome of the single
`TB.CreateTransfers` call on the concatenated batch (never a per-caller
slice); consequently a buffered caller's reply renders the results of
the whole batch. -/
theorem fanout_identical_batchwide_result :
    (∀ (tbCreate : TransferAdapter) (payloads : List TimedPayload),
       ∀ s ∈ flushSends tbCreate payloads,
         s.2 = { results := (tbCreate (collectTransfers payloads)).1,
                 error := (tbCreate (collectTransfers payloads)).2 })
  ∧ (∀ (hp tp : String → Except GoError Nat)
       (await : List Transfer → TimedPayloadResponse)
       (req : List ProtoTransfer) (transfers : List Transfer),
       req.length ≠ 0 →
       translateTransfers hp tp req = .ok transfers →
       (await transfers).error = none →
       createTransfers hp tp (.buffered await) req
         = .ok ⟨(await transfers).results.map (fun r => r.result)⟩) := by
  constructor
  · intro tbCreate payloads s hs
    simp only [flushSends, List.mem_map] at hs
    rcases hs with ⟨p, _, rfl⟩
    rfl
  · intro hp tp await req transfers hne htrans herr
    unfold createTransfers
    rw [if_neg hne, htrans]
    simp [herr]

/-- C3: a downstream error for a Batch is delivered unchanged to every
waiter of that Batch (every channel send carries that same error), and
a buffered handler whose channel read carries the error returns it with
a nil reply; no retry and no partial-success decomposition occur. -/
theorem flush_error_propagated_to_all_waiters
    (tbCreate : TransferAdapter) (payloads : List TimedPayload)
    (e : GoError)
    (he : (tbCreate (collectTransfers payloads)).2 = some e) :
    (∀ s ∈ flushSends tbCreate payloads, s.2.error = some e)
  ∧ (∀ (hp tp : String → Except GoError Nat)
       (await : List Transfer → TimedPayloadResponse)
       (req : List ProtoTransfer) (transfers : List Transfer),
       req.length ≠ 0 →
       translateTransfers hp tp req = .ok transfers →
       (await transfers).error = some e →
       createTransfers hp tp (.buffered await) req = .error e) := by
  constructor
  · intro s hs
    simp only [flushSends, List.mem_map] at hs
    rcases hs with ⟨p, _, rfl⟩
    exact he
  · intro hp tp await req transfers hne htrans herr
    unfold createTransfers
    rw [if_neg hne, htrans]
    simp [herr]

/-- C5: with coalescing disabled (`TimedBuf` is `nil`), for every
non-empty request, `CreateTransfers` returns exactly what the buffered
path would deliver for that request taken in isolation (a batch holding
only this payload), and, when translation succeeds, exactly the result
of invoking the downstream adapter directly on the translated transfer
sequence. -/
theorem unbuffered_passthrough_equivalence
    (hp tp : String → Except GoError Nat) (tbCreate : TransferAdapter)
    (req : List ProtoTransfer) (hne : req.length ≠ 0) :
    createTransfers hp tp (.unbuffered tbCreate) req
        = createTransfers hp tp
            (.buffered (fun ts => flushResponse tbCreate [⟨0, ts⟩])) req
  ∧ ∀ transfers, translateTransfers hp tp req = .ok transfers →
      createTransfers hp tp (.unbuffered tbCreate) req
        = directAdapterResult tbCreate transfers := by
  constructor
  · unfold createTransfers
    rw [if_neg hne, if_neg hne]
    cases htrans : translateTransfers hp tp req with
    | error e => rfl
    | ok transfers =>
      have hcollect : collectTransfers [⟨0, transfers⟩] = transfers := by
        simp [collectTransfers]
      simp only [flushResponse, hcollect]
  · intro transfers htrans
    unfold createTransfers directAdapterResult
    rw [if_neg hne, htrans]

/-- C6 counterexample: constructing the buffer with a `BUFFER_SIZE`
that parses to -5 and a `BUFFER_DELAY` that parses to -7ns succeeds —
`NewApp` builds a `TimedBuf` with capacity -5 and delay -7 and reports
no error (its return type `*App` has no error component at all), so
invalid capacity/delay is not a configuration error reported at
construction. -/
theorem newApp_accepts_nonpositive_config :
    newAppBufConfig true (some (-5)) (some (-7)) = some ⟨-5, -7⟩
      ∧ (-5 : Int) ≤ 0 ∧ (-7 : Int) ≤ 0 := by
  decide

/-- C6 amended: `NewApp` performs no validation of capacity or delay
and reports no configuration error: any non-zero parsed `BUFFER_SIZE`
(including negative values) and any parsed `BUFFER_DELAY` (including
non-positive durations) are passed unchanged to the buffer
constructor. -/
theorem newApp_applies_no_validation (n d : Int) (hn : n ≠ 0) :
    newAppBufConfig true (some n) (some d) = some ⟨n, d⟩ := by
  simp [newAppBufConfig, atoiIgnoringErr, hn]

/-- Witness for the amended C6 at `n = -3`, `d = -9`. -/
theorem newApp_applies_no_validation_witness :
    newAppBufConfig true (some (-3)) (some (-9)) = some ⟨-3, -9⟩ :=
  newApp_applies_no_validation (-3) (-9) (by decide)

/-- C7: with buffering enabled, the capacity defaults to 1024 when
`BUFFER_SIZE` is absent (Go's `Atoi` fails on the empty string and the
discarded-error value 0 is used) or parses to 0, and the delay defaults
to 100 milliseconds when `BUFFER_DELAY` fails to parse as a
duration. -/
theorem newApp_buffer_defaults :
    (∀ p : Option Int, ∃ cfg : BufConfig,
        newAppBufConfig true none p = some cfg ∧ cfg.size = 1024)
  ∧ (∀ p : Option Int, ∃ cfg : BufConfig,
        newAppBufConfig true (some 0) p = some cfg ∧ cfg.size = 1024)
  ∧ (∀ a : Option Int, ∃ cfg : BufConfig,
        newAppBufConfig true a none = some cfg
          ∧ cfg.delay = 100 * millisecond) := by
  refine ⟨fun p => ⟨⟨1024, p.getD (100 * millisecond)⟩, ?_, rfl⟩,
          fun p => ⟨⟨1024, p.getD (100 * millisecond)⟩, ?_, rfl⟩,
          fun a => ⟨⟨if atoiIgnoringErr a = 0 then 1024 else atoiIgnoringErr a,
                     100 * millisecond⟩, ?_, rfl⟩⟩
  · simp [newAppBufConfig, atoiIgnoringErr]
  · simp [newAppBufConfig, atoiIgnoringErr]
  · simp [newAppBufConfig]

/-- C8: an empty request is rejected by the handler before the core is
involved: `CreateTransfers` of zero transfers returns
`ErrZeroTransfers` and `CreateAccounts` of zero accounts returns
`ErrZeroAccounts`, whatever the buffer mode and whatever the downstream
client would do (neither is consulted). -/
theorem empty_requests_rejected_before_downstream :
    (∀ (hp tp : String → Except GoError Nat) (mode : BufMode),
        createTransfers hp tp mode [] = .error .zeroTransfers)
  ∧ (∀ (hp tp : String → Except GoError Nat) (tbA : AccountAdapter),
        createAccounts hp tp tbA [] = .error .zeroAccounts) :=
  ⟨fun _ _ _ => rfl, fun _ _ _ => rfl⟩

/-- C9: the translated domain transfer takes its `Code` field from the
request transfer's `Ledger` field truncated to 16 bits (not from the
request's `Code` field), and its `Timeout` and `Timestamp` are the
constant 0. -/
theorem transfer_code_from_ledger_field
    (hp tp : String → Except GoError Nat) (t : ProtoTransfer)
    (tr : Transfer) (h : translateTransfer hp tp t = .ok tr) :
    tr.code = t.ledger % 2 ^ 16 ∧ tr.timeout = 0 ∧ tr.timestamp = 0 := by
  unfold translateTransfer at h
  repeat' split at h
  all_goals cases h
  exact ⟨rfl, rfl, rfl⟩

/-- C10: a translation failure anywhere in a request is atomic — the
handler returns the translation error and the downstream client is
never invoked (the result is the same error for every possible buffer
mode and downstream adapter), for transfers and for accounts alike. -/
theorem translation_failure_is_atomic :
    (∀ (hp tp : String → Except GoError Nat) (mode : BufMode)
       (req : List ProtoTransfer) (e : GoError),
       translateTransfers hp tp req = .error e →
       createTransfers hp tp mode req = .error e)
  ∧ (∀ (hp tp : String → Except GoError Nat) (tbA : AccountAdapter)
       (req : List ProtoAccount) (e : GoError),
       translateAccounts hp tp req = .error e →
       createAccounts hp tp tbA req = .error e) := by
  constructor
  · intro hp tp mode req e h
    cases req with
    | nil => simp [translateTransfers] at h
    | cons t rest => simp [createTransfers, h]
  · intro hp tp tbA req e h
    cases req with
    | nil => simp [translateAccounts] at h
    | cons a rest => simp [createAccounts, h]

/-- Witness for C2: both channel sends of a two-payload batch carry the
batch-wide response, and a buffered caller's reply renders the whole
batch outcome. -/
theorem fanout_identical_batchwide_result_witness :
    ((0 : Nat), flushResponse tbOk [samplePayload]).2
        = { results := (tbOk (collectTransfers [samplePayload])).1,
            error := (tbOk (collectTransfers [samplePayload])).2 }
  ∧ createTransfers okParse okParse (.buffered awaitOk) [sampleProtoTransfer]
        = .ok ⟨(awaitOk [sampleTranslated]).results.map (fun r => r.result)⟩ :=
  ⟨fanout_identical_batchwide_result.1 tbOk [samplePayload]
      (0, flushResponse tbOk [samplePayload]) (by simp [flushSends, samplePayload]),
   fanout_identical_batchwide_result.2 okParse okParse awaitOk
      [sampleProtoTransfer] [sampleTranslated] (by decide) (by rfl) rfl⟩

/-- Witness for C3 with a concrete failing adapter. -/
theorem flush_error_propagated_to_all_waiters_witness :
    ((0 : Nat), flushResponse tbErr [samplePayload]).2.error
        = some (.downstream 7)
  ∧ createTransfers okParse okParse (.buffered awaitErr) [sampleProtoTransfer]
        = .error (.downstream 7) :=
  ⟨(flush_error_propagated_to_all_waiters tbErr [samplePayload]
      (.downstream 7) rfl).1
      (0, flushResponse tbErr [samplePayload]) (by simp [flushSends, samplePayload]),
   (flush_error_propagated_to_all_waiters tbErr [samplePayload]
      (.downstream 7) rfl).2
      okParse okParse awaitErr [sampleProtoTransfer] [sampleTranslated]
      (by decide) (by rfl) rfl⟩

/-- Witness for C5 on a concrete one-transfer request. -/
theorem unbuffered_passthrough_equivalence_witness :
    createTransfers okParse okParse (.unbuffered tbOk) [sampleProtoTransfer]
        = createTransfers okParse okParse
            (.buffered (fun ts => flushResponse tbOk [⟨0, ts⟩]))
            [sampleProtoTransfer]
  ∧ createTransfers okParse okParse (.unbuffered tbOk) [sampleProtoTransfer]
        = directAdapterResult tbOk [sampleTranslated] :=
  ⟨(unbuffered_passthrough_equivalence okParse okParse tbOk
      [sampleProtoTransfer] (by decide)).1,
   (unbuffered_passthrough_equivalence okParse okParse tbOk
      [sampleProtoTransfer] (by decide)).2 [sampleTranslated] (by rfl)⟩

/-- Witness for C9 on a concrete transfer with `ledger = 70001`,
`code = 9`: the translated code is `70001 % 2^16 = 4465`. -/
theorem transfer_code_from_ledger_field_witness :
    sampleTranslated.code = sampleProtoTransfer.ledger % 2 ^ 16
  ∧ sampleTranslated.timeout = 0 ∧ sampleTranslated.timestamp = 0 :=
  transfer_code_from_ledger_field okParse okParse sampleProtoTransfer
    sampleTranslated (by rfl)

/-- Witness for C10 with a concrete failing hex parser: the first
identifier fails and the handlers return exactly that error. -/
theorem translation_failure_is_atomic_witness :
    createTransfers failParse okParse (.unbuffered tbOk) [sampleProtoTransfer]
        = .error (.hexParse "a1")
  ∧ createAccounts failParse okParse tbAccOk [sampleProtoAccount]
        = .error (.hexParse "acct1") :=
  ⟨translation_failure_is_atomic.1 failParse okParse (.unbuffered tbOk)
      [sampleProtoTransfer] (.hexParse "a1") (by rfl),
   translation_failure_is_atomic.2 failParse okParse tbAccOk
      [sampleProtoAccount] (.hexParse "acct1") (by rfl)⟩

end TigerBeetleGrpc
